import Mathlib

/-!
Shallow embedding of the business-rule validation layer in
src/BusinessLayer.js.

Modelling conventions:
* JavaScript string values are Lean String; an optionally-present field of
  the input patch object is Option String, with none standing for
  undefined.  JavaScript truthiness of such a field (used by the source in
  conditions like the one on deptData.dept_no) is the predicate truthy
  below: undefined and the empty string are falsy.
* The data-access port (this.dataLayer) is a record of functions.  An
  asynchronous port call that may reject is modelled with
  Except String: Except.error e is a raised fault carrying message e.
* Timestamps are modelled by their parse outcome: some t is a successfully
  parsed Date whose value is t milliseconds since the epoch (interpreted in
  local time, so getHours, getDay and the calendar fields are derived
  directly from t); none is an Invalid Date (getTime() is NaN).
* The validateDepartmentUpdate embedding additionally returns a Bool
  recording whether the getAllDepartment port call was issued; this
  instruments the source without changing its visible result (the first
  component).
-/

/-- JavaScript truthiness of an optionally present string field:
undefined (none) and the empty string are falsy, every other string is
truthy. -/
def truthy : Option String → Bool
  | none => false
  | some s => !(s == "")

/-- A stored department record as exposed by the data layer: getId,
getDeptNo, getDeptName, getLocation read the fields, the setters replace
them (modelled functionally by applyPatch below). -/
structure Department where
  dept_id : String
  dept_no : String
  dept_name : String
  location : String
deriving DecidableEq

/-- The partial department patch given to validateDepartmentUpdate and
updateDepartment; every field may be absent (undefined). -/
structure DeptData where
  dept_id : Option String := none
  company : Option String := none
  dept_no : Option String := none
  dept_name : Option String := none
  location : Option String := none
deriving DecidableEq

/-- The data-access port used by the source (this.dataLayer).  Each
operation may reject, modelled by Except.error. -/
structure DataLayer where
  getDepartment : Option String → Option String → Except String (Option Department)
  getAllDepartment : Option String → Except String (List Department)
  updateDepartment : Department → Except String Department

/-- The structured result resolved by validateDepartmentUpdate: a valid
flag, the accumulated error messages, and (on the normal return path once
the lookup succeeded) the fetched existing-department handle. -/
structure ValidationResult where
  valid : Bool
  errors : List String
  existingDept : Option Department := none
deriving DecidableEq

/-- The required-fields check at the top of validateDepartmentUpdate: the
message is pushed when dept_id or company is falsy. -/
def requiredFieldErrors (d : DeptData) : List String :=
  if !(truthy d.dept_id) || !(truthy d.company) then
    [("Department ID and company name are required")]
  else []

/-- The dept_no uniqueness step of validateDepartmentUpdate: the source
computes isDeptNoUnique by scanning allDepartments for another record with
the same dept_no and a different id, and pushes the uniqueness message when
the scan finds one.  Returns the error list after this step. -/
def uniquenessErrors (d : DeptData) (allDepartments : List Department) : List String :=
  if allDepartments.any (fun dept =>
      (some dept.dept_no == d.dept_no) && (some dept.dept_id != d.dept_id)) then
    requiredFieldErrors d ++ [("Department number must be unique across all companies")]
  else requiredFieldErrors d

/-- validateDepartmentUpdate of src/BusinessLayer.js.  The try block wraps
the two port calls; a fault from either is caught and converted into the
error entry "Validation error: " followed by the fault message, and the
operation still resolves to a structured result (the embedding is a total
function).  The second component of the pair records whether the
getAllDepartment port call was issued. -/
def validateDepartmentUpdate (dl : DataLayer) (d : DeptData) :
    ValidationResult × Bool :=
  match dl.getDepartment d.company d.dept_id with
  | .error e =>
      (⟨false, requiredFieldErrors d ++ [("Validation error: " ++ e)], none⟩, false)
  | .ok none =>
      (⟨false, requiredFieldErrors d ++ [("Department not found")], none⟩, false)
  | .ok (some existingDept) =>
      if truthy d.dept_no ∧ d.dept_no ≠ some existingDept.dept_no then
        match dl.getAllDepartment d.company with
        | .error e =>
            (⟨false, requiredFieldErrors d ++ [("Validation error: " ++ e)], none⟩, true)
        | .ok allDepartments =>
            (⟨(uniquenessErrors d allDepartments).isEmpty,
              uniquenessErrors d allDepartments, some existingDept⟩, true)
      else
        (⟨(requiredFieldErrors d).isEmpty, requiredFieldErrors d, some existingDept⟩, false)

/-- One conditional setter line of updateDepartment: the field is replaced
only when the patch value is truthy. -/
def setIfTruthy (v : Option String) (current : String) : String :=
  match v with
  | some s => if s == "" then current else s
  | none => current

/-- The three conditional setter lines of updateDepartment applied to the
fetched existing record: dept_name, dept_no and location are each replaced
only if provided and truthy in the patch. -/
def applyPatch (d : DeptData) (existingDept : Department) : Department :=
  { existingDept with
      dept_name := setIfTruthy d.dept_name existingDept.dept_name
      dept_no := setIfTruthy d.dept_no existingDept.dept_no
      location := setIfTruthy d.location existingDept.location }

/-- updateDepartment of src/BusinessLayer.js: runs the validation, throws
an aggregate error joining the messages with ", " when invalid, otherwise
applies the provided fields to the existing record and delegates to the
data layer.  The none branch of the match is unreachable: a valid result
always carries the existing-department handle. -/
def updateDepartment (dl : DataLayer) (d : DeptData) : Except String Department :=
  let validationResult := (validateDepartmentUpdate dl d).1
  if !validationResult.valid then
    .error ("Validation failed: " ++ String.intercalate (", ") validationResult.errors)
  else
    match validationResult.existingDept with
    | some existingDept => dl.updateDepartment (applyPatch d existingDept)
    | none => .error ("TypeError")

/-- A stored employee record handle; only its presence matters to the
validators. -/
structure Employee where
  emp_id : Int
deriving DecidableEq

/-- validateManager of src/BusinessLayer.js: the sentinel id 0 returns
before any port call; otherwise the employee lookup runs (a port fault
propagates unmodified) and an absent employee raises the invalid-manager
message. -/
def validateManager (getEmployee : Int → Except String (Option Employee))
    (mngId : Int) : Except String Unit :=
  if mngId = 0 then .ok ()
  else
    match getEmployee mngId with
    | .error e => .error e
    | .ok none => .error ("Invalid manager ID: " ++ toString mngId ++ ".")
    | .ok (some _) => .ok ()

/-- Gregorian leap-year rule, as used by the host date library. -/
def isLeapYear (y : Nat) : Bool :=
  (y % 4 == 0 && y % 100 != 0) || y % 400 == 0

/-- Number of days in month m (1..12) of year y. -/
def daysInMonth (y m : Nat) : Nat :=
  if m = 2 then (if isLeapYear y then 29 else 28)
  else if m = 4 ∨ m = 6 ∨ m = 9 ∨ m = 11 then 30
  else 31

/-- Day number (days since 1970-01-01) of the proleptic Gregorian civil
date y-m-d, by the standard civil-from-days era decomposition.  Int
division here is euclidean, which for the positive divisors used agrees
with floor division as the algorithm requires. -/
def daysFromCivil (y : Int) (m d : Nat) : Int :=
  let yAdj : Int := if m ≤ 2 then y - 1 else y
  let era : Int := yAdj / 400
  let yoe : Int := yAdj % 400
  let mp : Nat := (m + 9) % 12
  let doy : Nat := (153 * mp + 2) / 5 + d - 1
  let doe : Int := yoe * 365 + yoe / 4 - yoe / 100 + (doy : Int)
  era * 146097 + doe - 719468

/-- Civil date (year, month 1..12, day 1..31) of a nonnegative day number
(days since 1970-01-01); inverse of daysFromCivil on that range. -/
def civilFromDays (z : Nat) : Nat × Nat × Nat :=
  let zb := z + 719468
  let era := zb / 146097
  let doe := zb % 146097
  let yoe := (doe - doe / 1460 + doe / 36524 - doe / 146096) / 365
  let y := yoe + era * 400
  let doy := doe - (365 * yoe + yoe / 4 - yoe / 100)
  let mp := (5 * doy + 2) / 153
  let dayv := doy - (153 * mp + 2) / 5 + 1
  let mv := if mp < 10 then mp + 3 else mp - 9
  (if mv ≤ 2 then y + 1 else y, mv, dayv)

/-- ISO weekday (Monday = 1 .. Sunday = 7) of a civil date, as reported by
the host date library.  Day 0 (1970-01-01) is a Thursday. -/
def isoWeekday (y : Int) (m d : Nat) : Int :=
  (daysFromCivil y m d + 3) % 7 + 1

/-- JavaScript Date.prototype.getDay (Sunday = 0 .. Saturday = 6) of a
local-time millisecond timestamp. -/
def getDay (t : Nat) : Nat := (t / 86400000 + 4) % 7

/-- JavaScript Date.prototype.getHours of a local-time millisecond
timestamp. -/
def getHours (t : Nat) : Nat := t / 3600000 % 24

/-- JavaScript Date.prototype.getMinutes of a local-time millisecond
timestamp. -/
def getMinutes (t : Nat) : Nat := t / 60000 % 60

/-- JavaScript Date.prototype.getDate (day of month) of a local-time
millisecond timestamp. -/
def getDate (t : Nat) : Nat := (civilFromDays (t / 86400000)).2.2

/-- JavaScript Date.prototype.getMonth (0-based month) of a local-time
millisecond timestamp. -/
def getMonth (t : Nat) : Nat := (civilFromDays (t / 86400000)).2.1 - 1

/-- JavaScript Date.prototype.getFullYear of a local-time millisecond
timestamp. -/
def getFullYear (t : Nat) : Nat := (civilFromDays (t / 86400000)).1

/-- Numeric value of a decimal digit character. -/
def digitVal (c : Char) : Nat := c.toNat - ('0').toNat

/-- Strict parse of a date string against the pattern YYYY-MM-DD, as
moment(hireDate, "YYYY-MM-DD", true) performs it: the string must be
exactly four digits, a hyphen, two digits, a hyphen and two digits, and the
resulting month/day must name an existing proleptic Gregorian calendar
date; every other string yields an invalid date (none). -/
def parseYMDstrict (s : String) : Option (Nat × Nat × Nat) :=
  match s.toList with
  | [y1, y2, y3, y4, h1, m1, m2, h2, d1, d2] =>
    if y1.isDigit && y2.isDigit && y3.isDigit && y4.isDigit &&
       (h1 == '-') && m1.isDigit && m2.isDigit &&
       (h2 == '-') && d1.isDigit && d2.isDigit then
      let y := ((digitVal y1 * 10 + digitVal y2) * 10 + digitVal y3) * 10 + digitVal y4
      let m := digitVal m1 * 10 + digitVal m2
      let d := digitVal d1 * 10 + digitVal d2
      if 1 ≤ m ∧ m ≤ 12 ∧ 1 ≤ d ∧ d ≤ daysInMonth y m then some (y, m, d)
      else none
    else none
  | _ => none

/-- validateHireDate of src/BusinessLayer.js.  The strictly parsed date
sits at local midnight, so its instant is its day number times 86400000
milliseconds; now is the evaluation-time instant moment() in the same
scale.  An invalid or future date raises the first message, a Saturday or
Sunday (ISO weekday at least 6) raises the weekend message. -/
def validateHireDate (now : Int) (hireDate : String) : Except String Unit :=
  match parseYMDstrict hireDate with
  | none => .error ("Hire date must be a valid date and cannot be in the future.")
  | some (y, m, d) =>
    if daysFromCivil (y : Int) m d * 86400000 > now then
      .error ("Hire date must be a valid date and cannot be in the future.")
    else if isoWeekday (y : Int) m d ≥ 6 then
      .error ("Hire date must be a Monday through Friday. Weekends are not allowed.")
    else .ok ()

/-- The while loop of validateStartTime that walks the current date
backward one day at a time until its weekday is Monday (getDay = 1).  The
loop needs at most six steps, so fuel 7 reproduces it exactly for any day
number at least 6 (times from 1970-01-05 on, the first Monday after the
epoch). -/
def backToMonday : Nat → Nat → Nat
  | dayIdx, 0 => dayIdx
  | dayIdx, fuel + 1 =>
      if (dayIdx + 4) % 7 = 1 then dayIdx else backToMonday (dayIdx - 1) fuel

/-- The previous-Monday bound computed by validateStartTime: walk back from
the current date to a Monday, then set the time of day to 00:00:00.000. -/
def prevMondayOf (now : Nat) : Nat :=
  backToMonday (now / 86400000) 7 * 86400000

/-- validateStartTime of src/BusinessLayer.js.  The string argument is
modelled by its parse outcome (none for an unparsable string).  now is the
instant new Date() observed by the call. -/
def validateStartTime (now : Nat) (startTime : Option Nat) : Except String Unit :=
  match startTime with
  | none => .error ("Invalid start time format.")
  | some startDate =>
    if getDay startDate = 0 ∨ getDay startDate = 6 then
      .error ("Start time cannot be on weekend.")
    else if getHours startDate < 8 ∨ getHours startDate > 18 then
      .error ("Start time must be between 08:00 and 18:00.")
    else if startDate < prevMondayOf now ∨ startDate > now then
      .error ("Start time must be between current date and previous Monday.")
    else .ok ()

/-- JavaScript subtraction of two Date values: NaN (an unparsable side)
propagates. -/
def jsSub : Option Nat → Option Nat → Option Int
  | some a, some b => some ((a : Int) - (b : Int))
  | _, _ => none

/-- JavaScript numeric less-than against a constant: any comparison
involving NaN is false. -/
def jsLtNum : Option Int → Int → Bool
  | none, _ => false
  | some v, c => v < c

/-- JavaScript strict inequality of two calendar-field reads: NaN (a field
of an Invalid Date) is strictly unequal to everything, itself included. -/
def jsStrictNeq : Option Nat → Option Nat → Bool
  | some a, some b => a != b
  | _, _ => true

/-- getDate lifted to a possibly invalid Date (NaN field for NaN time). -/
def getDateOpt (t : Option Nat) : Option Nat := t.map getDate

/-- getMonth lifted to a possibly invalid Date. -/
def getMonthOpt (t : Option Nat) : Option Nat := t.map getMonth

/-- getFullYear lifted to a possibly invalid Date. -/
def getFullYearOpt (t : Option Nat) : Option Nat := t.map getFullYear

/-- validateEndTime of src/BusinessLayer.js.  Both arguments are modelled
by their parse outcome; only endTime is tested for parse failure.  The
duration guard in the source compares the raw millisecond difference
divided by 3600000 against 1 with exact rational division, which holds
exactly when the difference is below 3600000 milliseconds (and is false
whenever the difference is NaN). -/
def validateEndTime (startTime endTime : Option Nat) : Except String Unit :=
  match endTime with
  | none => .error ("Invalid end time format.")
  | some endDate =>
    if jsLtNum (jsSub (some endDate) startTime) 3600000 then
      .error ("End time must be at least 1 hour after start time.")
    else if jsStrictNeq (getDateOpt startTime) (getDateOpt (some endDate)) ||
            jsStrictNeq (getMonthOpt startTime) (getMonthOpt (some endDate)) ||
            jsStrictNeq (getFullYearOpt startTime) (getFullYearOpt (some endDate)) then
      .error ("End time must be on the same day as start time.")
    else if getHours endDate < 8 ∨ getHours endDate > 18 then
      .error ("End time must be between 08:00 and 18:00.")
    else .ok ()

/-- A sample stored department used by concrete witnesses. -/
def acmeSales : Department := ⟨("1"), ("7"), ("Sales"), ("NY")⟩

/-- A port whose department lookup succeeds with acmeSales. -/
def storeFound : DataLayer :=
  ⟨fun _ _ => .ok (some acmeSales), fun _ => .ok [acmeSales], fun dept => .ok dept⟩

/-- A port whose department lookup finds nothing. -/
def storeMissing : DataLayer :=
  ⟨fun _ _ => .ok none, fun _ => .ok [], fun dept => .ok dept⟩

/-- A port whose lookups all reject. -/
def storeDown : DataLayer :=
  ⟨fun _ _ => .error ("db down"), fun _ => .error ("db down"), fun dept => .ok dept⟩

/-- A port whose department lookup succeeds but whose getAllDepartment
rejects. -/
def storeListDown : DataLayer :=
  ⟨fun _ _ => .ok (some acmeSales), fun _ => .error ("db down"), fun dept => .ok dept⟩

/-- Sanity anchors for the calendar model: the civil conversions agree on
2024-01-10 (day number 19732, a Wednesday), and the strict parser accepts
2024-01-01 (a Monday), rejects the nonexistent 2024-02-30 and rejects the
slash-separated format. -/
theorem calendar_model_anchors :
    civilFromDays 19732 = (2024, 1, 10) ∧
    daysFromCivil 2024 1 10 = 19732 ∧
    isoWeekday 2024 1 10 = 3 ∧
    isoWeekday 2024 1 1 = 1 ∧
    isoWeekday 2024 1 6 = 6 ∧
    parseYMDstrict ("2024-01-01") = some (2024, 1, 1) ∧
    parseYMDstrict ("2024-02-30") = none ∧
    parseYMDstrict ("01/01/2024") = none := by
  decide

/-- C1: validateDepartmentUpdate never raises: the embedding is a total
function into a structured result (with the query flag alongside), and a
fault raised by either port lookup is caught and converted into the error
entry "Validation error: " followed by the fault message, with valid set to
false, instead of propagating to the caller. -/
theorem claim_C1_lookup_faults_converted (dl : DataLayer) (d : DeptData) :
    (∀ e, dl.getDepartment d.company d.dept_id = .error e →
      (validateDepartmentUpdate dl d).1 =
        ⟨false, requiredFieldErrors d ++ [("Validation error: " ++ e)], none⟩) ∧
    (∀ e existingDept,
      dl.getDepartment d.company d.dept_id = .ok (some existingDept) →
      (truthy d.dept_no ∧ d.dept_no ≠ some existingDept.dept_no) →
      dl.getAllDepartment d.company = .error e →
      (validateDepartmentUpdate dl d).1 =
        ⟨false, requiredFieldErrors d ++ [("Validation error: " ++ e)], none⟩) := by
  constructor
  · intro e he
    unfold validateDepartmentUpdate
    rw [he]
  · intro e existingDept hlk hcond hall
    unfold validateDepartmentUpdate
    rw [hlk]
    simp only [if_pos hcond, hall]

/-- Witness for C1: a rejecting lookup, and a rejecting getAllDepartment
after a successful lookup, both resolve to a structured invalid result
carrying the converted fault message. -/
theorem claim_C1_witness :
    (validateDepartmentUpdate storeDown
        ⟨some ("1"), some ("c"), none, none, none⟩).1 =
      ⟨false, [("Validation error: db down")], none⟩ ∧
    (validateDepartmentUpdate storeListDown
        ⟨some ("1"), some ("c"), some ("9"), none, none⟩).1 =
      ⟨false, [("Validation error: db down")], none⟩ := by
  constructor
  · exact (claim_C1_lookup_faults_converted storeDown _).1 ("db down") rfl
  · exact (claim_C1_lookup_faults_converted storeListDown _).2 ("db down") acmeSales rfl
      (by decide) rfl

/-- C3 counterexample: a patch whose lookup finds no stored department but
which is missing the company field gets TWO error entries, the
required-fields message followed by "Department not found", so the errors
list is not the one-element list the claim states. -/
theorem claim_C3_counterexample :
    (validateDepartmentUpdate storeMissing ⟨some ("1"), none, none, none, none⟩).1.errors =
      [("Department ID and company name are required"), ("Department not found")] ∧
    (validateDepartmentUpdate storeMissing ⟨some ("1"), none, none, none, none⟩).1.errors ≠
      [("Department not found")] := by
  constructor
  · rfl
  · decide

/-- C3 amended: for every patch that does supply truthy dept_id and company
and whose lookup finds no stored department, the operation returns
valid=false with errors exactly ["Department not found"] and issues no
getAllDepartment query (the instrumentation flag is false). -/
theorem claim_C3_not_found (dl : DataLayer) (d : DeptData)
    (hid : truthy d.dept_id = true) (hco : truthy d.company = true)
    (hlk : dl.getDepartment d.company d.dept_id = .ok none) :
    validateDepartmentUpdate dl d = (⟨false, [("Department not found")], none⟩, false) := by
  unfold validateDepartmentUpdate
  rw [hlk]
  simp [requiredFieldErrors, hid, hco]

/-- Witness for C3: a concrete well-formed patch against a store with no
matching department yields exactly the single not-found error and no
uniqueness query. -/
theorem claim_C3_witness :
    validateDepartmentUpdate storeMissing ⟨some ("1"), some ("c"), none, none, none⟩ =
      (⟨false, [("Department not found")], none⟩, false) :=
  claim_C3_not_found storeMissing _ rfl rfl rfl

/-- C6: when the supplied dept_no equals the stored department's dept_no,
the uniqueness branch is skipped: no getAllDepartment query is issued (the
instrumentation flag is false) and the errors are exactly the
required-fields errors, which never contain the uniqueness message. -/
theorem claim_C6_unchanged_deptno_skips_uniqueness (dl : DataLayer) (d : DeptData)
    (existingDept : Department)
    (hlk : dl.getDepartment d.company d.dept_id = .ok (some existingDept))
    (heq : d.dept_no = some existingDept.dept_no) :
    validateDepartmentUpdate dl d =
      (⟨(requiredFieldErrors d).isEmpty, requiredFieldErrors d, some existingDept⟩, false) ∧
    ("Department number must be unique across all companies") ∉
      (validateDepartmentUpdate dl d).1.errors := by
  have hcond : ¬ (truthy d.dept_no = true ∧ d.dept_no ≠ some existingDept.dept_no) :=
    fun hc => hc.2 heq
  have hmain : validateDepartmentUpdate dl d =
      (⟨(requiredFieldErrors d).isEmpty, requiredFieldErrors d, some existingDept⟩, false) := by
    unfold validateDepartmentUpdate
    rw [hlk]
    simp only [if_neg hcond]
  refine ⟨hmain, ?_⟩
  rw [hmain]
  unfold requiredFieldErrors
  split <;> simp

/-- Witness for C6: a patch resubmitting the stored dept_no "7" against a
store that also lists another department sharing that number still skips
the uniqueness check and reports no error. -/
theorem claim_C6_witness :
    validateDepartmentUpdate storeFound ⟨some ("1"), some ("c"), some ("7"), none, none⟩ =
      (⟨true, [], some acmeSales⟩, false) ∧
    ("Department number must be unique across all companies") ∉
      (validateDepartmentUpdate storeFound
        ⟨some ("1"), some ("c"), some ("7"), none, none⟩).1.errors := by
  have h := claim_C6_unchanged_deptno_skips_uniqueness storeFound
    ⟨some ("1"), some ("c"), some ("7"), none, none⟩ acmeSales rfl rfl
  exact h

/-- C10 counterexample: with a port whose getAllDepartment rejects after a
successful department lookup, the catch-path result omits the existingDept
handle even though the lookup succeeded, contradicting the claim that the
handle is included whenever the lookup succeeded. -/
theorem claim_C10_counterexample :
    storeListDown.getDepartment (some ("c")) (some ("1")) = .ok (some acmeSales) ∧
    (validateDepartmentUpdate storeListDown
        ⟨some ("1"), some ("c"), some ("9"), none, none⟩).1.valid = false ∧
    (validateDepartmentUpdate storeListDown
        ⟨some ("1"), some ("c"), some ("9"), none, none⟩).1.existingDept = none := by
  exact ⟨rfl, rfl, rfl⟩

/-- C10 amended: every result satisfies valid = true iff the errors list is
empty; and the existingDept handle is included whenever the department
lookup succeeded and no later port call threw (either the uniqueness branch
was not taken, or getAllDepartment returned normally), including results
with valid=false from required-fields or uniqueness failures. -/
theorem claim_C10_result_invariant (dl : DataLayer) (d : DeptData) :
    ((validateDepartmentUpdate dl d).1.valid = true ↔
      (validateDepartmentUpdate dl d).1.errors = []) ∧
    (∀ existingDept, dl.getDepartment d.company d.dept_id = .ok (some existingDept) →
      (¬ (truthy d.dept_no = true ∧ d.dept_no ≠ some existingDept.dept_no) ∨
        ∃ allDepartments, dl.getAllDepartment d.company = .ok allDepartments) →
      (validateDepartmentUpdate dl d).1.existingDept = some existingDept) := by
  constructor
  · unfold validateDepartmentUpdate
    rcases hlk : dl.getDepartment d.company d.dept_id with e | o
    · simp
    · rcases o with _ | existingDept
      · simp
      · simp only []
        split
        · rcases hall : dl.getAllDepartment d.company with e | allDepartments
          · simp
          · simp [List.isEmpty_iff]
        · simp [List.isEmpty_iff]
  · intro existingDept hlk hnothrow
    unfold validateDepartmentUpdate
    rw [hlk]
    rcases hnothrow with hskip | ⟨allDepartments, hall⟩
    · simp only [if_neg hskip]
    · by_cases hcond : truthy d.dept_no = true ∧ d.dept_no ≠ some existingDept.dept_no
      · simp only [if_pos hcond, hall]
      · simp only [if_neg hcond]

/-- Witness for C10: on the normal path (lookup succeeded, uniqueness
branch skipped) the handle is present in the result. -/
theorem claim_C10_witness :
    (validateDepartmentUpdate storeFound
        ⟨some ("1"), some ("c"), none, none, none⟩).1.existingDept = some acmeSales :=
  (claim_C10_result_invariant storeFound _).2 acmeSales rfl (Or.inl (by decide))

/-- C5: for a valid patch that supplies no dept_name and no dept_no, the
record handed to the data layer's update operation is exactly the fetched
record with only the location setter possibly applied: dept_name, dept_no
and dept_id are unchanged, and location is replaced exactly when the patch
supplies a truthy location. -/
theorem claim_C5_partial_update_frame (dl : DataLayer) (d : DeptData)
    (hname : d.dept_name = none) (hno : d.dept_no = none)
    (existingDept : Department)
    (hval : (validateDepartmentUpdate dl d).1.valid = true)
    (hex : (validateDepartmentUpdate dl d).1.existingDept = some existingDept) :
    updateDepartment dl d = dl.updateDepartment (applyPatch d existingDept) ∧
    (applyPatch d existingDept).dept_name = existingDept.dept_name ∧
    (applyPatch d existingDept).dept_no = existingDept.dept_no ∧
    (applyPatch d existingDept).dept_id = existingDept.dept_id ∧
    (applyPatch d existingDept).location = setIfTruthy d.location existingDept.location := by
  refine ⟨?_, ?_, ?_, rfl, rfl⟩
  · unfold updateDepartment
    simp only [hval, hex, Bool.not_true, Bool.false_eq_true, if_false]
  · simp [applyPatch, hname, setIfTruthy]
  · simp [applyPatch, hno, setIfTruthy]

/-- Witness for C5: a location-only patch against the sample store routes
the fetched record to the port update with dept_name and dept_no intact and
the new location applied. -/
theorem claim_C5_witness :
    updateDepartment storeFound ⟨some ("1"), some ("c"), none, none, some ("LA")⟩ =
      storeFound.updateDepartment
        (applyPatch ⟨some ("1"), some ("c"), none, none, some ("LA")⟩ acmeSales) ∧
    (applyPatch ⟨some ("1"), some ("c"), none, none, some ("LA")⟩ acmeSales).dept_name =
      acmeSales.dept_name ∧
    (applyPatch ⟨some ("1"), some ("c"), none, none, some ("LA")⟩ acmeSales).dept_no =
      acmeSales.dept_no ∧
    (applyPatch ⟨some ("1"), some ("c"), none, none, some ("LA")⟩ acmeSales).dept_id =
      acmeSales.dept_id ∧
    (applyPatch ⟨some ("1"), some ("c"), none, none, some ("LA")⟩ acmeSales).location =
      setIfTruthy (some ("LA")) acmeSales.location :=
  claim_C5_partial_update_frame storeFound _ rfl rfl acmeSales rfl rfl

/-- C8: the sentinel manager id 0 passes for every behaviour of the
employee lookup; for any other id whose lookup returns normally, the call
raises exactly when the lookup returned absent. -/
theorem claim_C8_manager_sentinel :
    (∀ getEmployee, validateManager getEmployee 0 = .ok ()) ∧
    (∀ getEmployee mngId r, mngId ≠ 0 → getEmployee mngId = Except.ok r →
      ((∃ e, validateManager getEmployee mngId = .error e) ↔ r = none)) := by
  constructor
  · intro getEmployee
    rfl
  · intro getEmployee mngId r hne hr
    unfold validateManager
    rw [if_neg hne, hr]
    rcases r with _ | emp <;> simp

/-- Witness for C8: against a store with no employees, id 0 passes and id 5
raises. -/
theorem claim_C8_witness :
    validateManager (fun _ => .ok none) 0 = .ok () ∧
    (∃ e, validateManager (fun _ => .ok none) 5 = .error e) := by
  constructor
  · exact (claim_C8_manager_sentinel).1 (fun _ => .ok none)
  · exact ((claim_C8_manager_sentinel).2 (fun _ => .ok none) 5 none (by decide) rfl).mpr rfl

/-- C7: validateHireDate raises exactly when the strict YYYY-MM-DD parse
fails (malformed string or nonexistent calendar date), or the parsed date
lies strictly after the evaluation-time instant, or its ISO weekday is at
least 6 (Saturday or Sunday); on every other input it returns normally. -/
theorem claim_C7_hire_date_iff (now : Int) (s : String) :
    (∃ e, validateHireDate now s = .error e) ↔
      (parseYMDstrict s = none ∨
        ∃ y m d, parseYMDstrict s = some (y, m, d) ∧
          (daysFromCivil (y : Int) m d * 86400000 > now ∨
            isoWeekday (y : Int) m d ≥ 6)) := by
  unfold validateHireDate
  rcases hp : parseYMDstrict s with _ | ⟨y, m, d⟩
  · simp
  · simp only [hp]
    constructor
    · rintro ⟨e, he⟩
      split at he
      · exact Or.inr ⟨y, m, d, rfl, Or.inl (by assumption)⟩
      · split at he
        · exact Or.inr ⟨y, m, d, rfl, Or.inr (by assumption)⟩
        · exact absurd he (by simp)
    · rintro (hnone | ⟨y2, m2, d2, heq, hbad⟩)
      · exact absurd hnone (by simp)
      · obtain ⟨rfl, rfl, rfl⟩ : y = y2 ∧ m = m2 ∧ d = d2 := by
          simpa using heq
        rcases hbad with hfut | hwk
        · exact ⟨_, by rw [if_pos hfut]⟩
        · by_cases hfut : daysFromCivil (y : Int) m d * 86400000 > now
          · exact ⟨_, by rw [if_pos hfut]⟩
          · exact ⟨_, by rw [if_neg hfut, if_pos hwk]⟩

/-- C2 counterexample: Wednesday 2024-01-10 18:01:00 local time (timestamp
1704909660000, hour 18, minute 1, a weekday inside the week of the current
instant Thursday 2024-01-11 12:00, timestamp 1704974400000) passes
validateStartTime entirely, so in particular its hour-window check passes at
18:01, where the claim states it fails. -/
theorem claim_C2_counterexample :
    getHours 1704909660000 = 18 ∧
    getMinutes 1704909660000 = 1 ∧
    getDay 1704909660000 = 3 ∧
    prevMondayOf 1704974400000 ≤ 1704909660000 ∧
    (1704909660000 : Nat) ≤ 1704974400000 ∧
    validateStartTime 1704974400000 (some 1704909660000) = .ok () := by
  refine ⟨by decide, by decide, by decide, by decide, by decide, ?_⟩
  rfl

/-- C2 amended: for a timestamp on a weekday within the current week, the
hour-window check of validateStartTime compares only the hour of day: the
whole call succeeds exactly when the hour lies in the closed interval from
8 to 18.  So 08:00 and 18:00 pass and 07:59 fails as claimed, but 18:01
also passes (its hour is 18); the first failing minute after the window is
19:00. -/
theorem claim_C2_hour_window (now t : Nat)
    (hwd0 : getDay t ≠ 0) (hwd6 : getDay t ≠ 6)
    (hlo : prevMondayOf now ≤ t) (hhi : t ≤ now) :
    validateStartTime now (some t) = .ok () ↔
      (8 ≤ getHours t ∧ getHours t ≤ 18) := by
  unfold validateStartTime
  have h1 : ¬ (getDay t = 0 ∨ getDay t = 6) := by
    rintro (h | h)
    · exact hwd0 h
    · exact hwd6 h
  have h3 : ¬ (t < prevMondayOf now ∨ t > now) := by omega
  simp only [if_neg h1, if_neg h3]
  by_cases h2 : getHours t < 8 ∨ getHours t > 18
  · rw [if_pos h2]
    constructor
    · intro hcontra
      exact absurd hcontra (by simp)
    · intro hok
      omega
  · rw [if_neg h2]
    constructor
    · intro _
      omega
    · intro _
      rfl

/-- Witness for C2: within the sample week, Wednesday 18:00:00 passes and
Wednesday 07:59:00 fails validateStartTime. -/
theorem claim_C2_witness :
    validateStartTime 1704974400000 (some 1704909600000) = .ok () ∧
    validateStartTime 1704974400000 (some 1704873540000) ≠ .ok () := by
  constructor
  · exact (claim_C2_hour_window 1704974400000 1704909600000
      (by decide) (by decide) (by decide) (by decide)).mpr (by decide)
  · intro hok
    exact absurd ((claim_C2_hour_window 1704974400000 1704873540000
      (by decide) (by decide) (by decide) (by decide)).mp hok) (by decide)

/-- C4: for parseable start and end times, the duration error of
validateEndTime is raised exactly when the raw millisecond difference
endTime minus startTime is below one hour; in particular a difference of
exactly 60 minutes passes the check, 59 minutes fails, and a negative
difference (end before start) fails with this same at-least-1-hour
message, not a distinct end-before-start error. -/
theorem claim_C4_duration_check (s e : Nat) :
    validateEndTime (some s) (some e) =
      .error ("End time must be at least 1 hour after start time.") ↔
    (e : Int) - (s : Int) < 3600000 := by
  by_cases h : (e : Int) - (s : Int) < 3600000
  · refine iff_of_true ?_ h
    simp [validateEndTime, jsSub, jsLtNum, h]
  · refine iff_of_false ?_ h
    intro hEq
    simp only [validateEndTime] at hEq
    rw [if_neg (by simp [jsSub, jsLtNum, h])] at hEq
    split at hEq
    · simp at hEq
    · split at hEq
      · simp at hEq
      · simp at hEq

/-- C9: when the end time is parseable but the start time is not, the NaN
millisecond difference makes the duration comparison false (so the duration
check passes vacuously and no invalid-start error is ever reported), and
the NaN calendar fields of the invalid start date are strictly unequal to
the end date fields, so the call raises the same-calendar-day error, for
every end timestamp. -/
theorem claim_C9_nan_start_same_day_error (e : Nat) :
    validateEndTime none (some e) =
      .error ("End time must be on the same day as start time.") := by
  rfl
